import Mathlib

/-!
Shallow embedding of the gate-controller core of `src/main.py` (a
single-threaded MicroPython event loop driving a feeder gate).

Globals of the Python program (`feed_times`, `last_trigger_day`,
`state['opened']`, `weight`, the sensor connection, the config file and
the Wi-Fi error flag) become fields of `ControllerState`.  Physical side
effects (`gate.duty`, ear animations, `TARE` sends) are recorded as a
list of `Actuation` events.  One iteration of the `while True` loop in
`main` (lines 237-270) is the function `tick`, fed by a `TickInput`
describing what the sockets and the clock deliver on that iteration.
-/

set_option autoImplicit false

namespace Snackzilla

/-- Physical side effects the controller can emit: the two `gate.duty`
positions, the two ear animations, and a best-effort `TARE` send. -/
inductive Actuation where
  | dutyOpen    -- gate.duty(40)
  | dutyClose   -- gate.duty(115)
  | earsOpen    -- animate_ears_open
  | earsClose   -- animate_ears_close
  | tareSend    -- conn.send(b'TARE'...)
  deriving DecidableEq, Repr

/-- The durable `config.json` file, abstracted: absent, unparseable JSON,
valid JSON without a `times` key, or valid JSON `{'times': ts}`. -/
inductive File where
  | absent
  | malformed
  | otherJson
  | withTimes (times : List String)
  deriving DecidableEq, Repr

/-- `last_trigger_day` is a Python dict from stamp to day; embedded as an
association list with unique keys maintained by `ledgerSet`/`ledgerPop`. -/
abbrev Ledger := List (String × Nat)

/-- `last_trigger_day.get(stamp)` -/
def ledgerGet (l : Ledger) (k : String) : Option Nat :=
  (List.find? (fun p => p.fst == k) l).map Prod.snd

/-- `last_trigger_day.pop(stamp, None)` (the resulting dict) -/
def ledgerPop (l : Ledger) (k : String) : Ledger :=
  List.filter (fun p => p.fst != k) l

/-- `last_trigger_day[stamp] = day` -/
def ledgerSet (l : Ledger) (k : String) (d : Nat) : Ledger :=
  (k, d) :: ledgerPop l k

/-- Python `f"{n:02d}"` for a nonnegative integer. -/
def pad2 (n : Nat) : String :=
  if n < 10 then "0" ++ toString n else toString n

/-- The stamp built by `handle_http` / `main`: `f"{h:02d}:{m:02d}"`. -/
def fmtStamp (h m : Nat) : String := pad2 h ++ ":" ++ pad2 m

/-- WEIGHT_THRESHOLD = 10 grams (line 27). -/
def WEIGHT_THRESHOLD : ℚ := 10

/-- All mutable controller state touched by the event loop. -/
structure ControllerState where
  feed_times : List String
  ledger : Ledger
  opened : Bool
  weight : ℚ
  conn : Bool          -- sensor connection present (`conn is not None`)
  file : File          -- durable config.json contents
  wifi_error : Bool
  deriving DecidableEq, Repr

/-- `save_config()` (lines 78-83): overwrite the file with
`{'times': feed_times}`.  The `OSError` branch only logs. -/
def save_config (times : List String) : File := File.withTimes times

/-- `load_config()` (lines 67-75): read the file; `times` key read with
default `[]`; on `OSError`/`ValueError` reset to `[]` and `save_config()`.
Returns the resulting `feed_times` and the resulting file. -/
def load_config (f : File) : List String × File :=
  match f with
  | File.withTimes ts => (ts, f)
  | File.otherJson => ([], f)
  | File.absent => ([], save_config [])
  | File.malformed => ([], save_config [])

/-- `open_gate(gate)` (lines 125-129): actuate and flip the flag only if
not already open.  Returns the new flag and the emitted actuations. -/
def open_gate (opened : Bool) : Bool × List Actuation :=
  if opened then (opened, []) else (true, [Actuation.dutyOpen])

/-- `close_gate(gate)` (lines 132-136): actuate and flip only if open. -/
def close_gate (opened : Bool) : Bool × List Actuation :=
  if opened then (false, [Actuation.dutyClose]) else (opened, [])

/-- The `/openNow` body (lines 188-193): unconditional `gate.duty(40)`,
set the flag, animate ears. -/
def forceOpen (_ : Bool) : Bool × List Actuation :=
  (true, [Actuation.dutyOpen, Actuation.earsOpen])

/-- The condition on line 268:
`stamp in feed_times and last_trigger_day.get(stamp) != day`. -/
def shouldTrigger (stamp : String) (day : Nat) (feedTimes : List String)
    (ledger : Ledger) : Bool :=
  decide (stamp ∈ feedTimes ∧ ledgerGet ledger stamp ≠ some day)

/-- An HTTP request, after `req.split()[1]` and the route regexes:
`addFeed h m` when `ADD_FEED_RE` matched with groups `h`, `m` (both from
`\d+`, hence naturals), `addFeedNoMatch` when the path starts with
`/addFeed` but the regex failed; similarly for `deleteFeed`. -/
inductive Request where
  | addFeed (h m : Nat)
  | addFeedNoMatch
  | deleteFeed (i : Nat)
  | deleteFeedNoMatch
  | openNow
  | closeNow
  | retareNow
  | resetTime
  | other
  deriving DecidableEq, Repr

/-- The `/deleteFeed` body (lines 185-187) on a parsed integer index:
`if 0 <= i < len(feed_times): last_trigger_day.pop(feed_times[i], None);
feed_times.pop(i); save_config()`.  The index is embedded as `Int`
because the code guards both bounds. -/
def deleteFeedOp (i : Int) (s : ControllerState) : ControllerState :=
  if 0 ≤ i ∧ i < (s.feed_times.length : Int) then
    let t := s.feed_times.getD i.toNat ""
    let ft := s.feed_times.eraseIdx i.toNat
    { s with ledger := ledgerPop s.ledger t, feed_times := ft,
             file := save_config ft }
  else s

/-- `handle_http` (lines 159-213), state effects only.  The initial
`recv`/parse failure is modelled by the caller passing no `Request`.
`wifi_error` short-circuits before route dispatch (lines 167-174). -/
def handle_http (r : Request) (s : ControllerState) :
    ControllerState × List Actuation :=
  if s.wifi_error then (s, [])
  else
    match r with
    | Request.addFeed h m =>
        let t := fmtStamp h m
        if t ∈ s.feed_times then (s, [])
        else
          let ft := s.feed_times ++ [t]
          ({ s with feed_times := ft, file := save_config ft,
                    ledger := ledgerPop s.ledger t }, [])
    | Request.deleteFeed i => (deleteFeedOp (i : Int) s, [])
    | Request.openNow =>
        ({ s with opened := true },
         [Actuation.dutyOpen, Actuation.earsOpen])
    | Request.closeNow =>
        ({ s with opened := false },
         [Actuation.dutyClose, Actuation.earsClose])
    | Request.retareNow =>
        (s, if s.conn then [Actuation.tareSend] else [])
    | Request.resetTime =>
        ({ s with feed_times := [], file := save_config [], ledger := [] }, [])
    | _ => (s, [])

/-! ### Sensor payload processing (lines 257-264) -/

/-- Python `str.splitlines()` restricted to `\n` boundaries (the sensor
protocol is `\n`-terminated): segments between newlines, the part after
the last newline kept only if nonempty. -/
def splitlinesAux (cur : List Char) : List Char → List String
  | [] => if cur.isEmpty then [] else [String.mk cur.reverse]
  | c :: cs =>
      if c = '\n' then String.mk cur.reverse :: splitlinesAux [] cs
      else splitlinesAux (c :: cur) cs

def splitlines (s : String) : List String := splitlinesAux [] s.toList

/-- Value of a digit string. -/
def digitsVal (cs : List Char) : Nat :=
  cs.foldl (fun a c => a * 10 + (c.toNat - Char.toNat '0')) 0

/-- Unsigned part of Python `float(...)` on plain decimal text:
digits, optionally a point and digits, at least one digit somewhere. -/
def parseUnsigned (cs : List Char) : Option ℚ :=
  let ip := cs.takeWhile Char.isDigit
  let rest := cs.dropWhile Char.isDigit
  match rest with
  | [] => if ip.isEmpty then none else some (digitsVal ip)
  | '.' :: fp =>
      if fp.all Char.isDigit && !(ip.isEmpty && fp.isEmpty) then
        some ((digitsVal ip : ℚ) + (digitsVal fp : ℚ) / (10 : ℚ) ^ fp.length)
      else none
  | _ => none

/-- Python `float(line)` on the decimal text the sensor sends; `none`
models the `ValueError` a malformed line raises. -/
def parseFloat (s : String) : Option ℚ :=
  match s.toList with
  | '-' :: rest => (parseUnsigned rest).map (fun q => -q)
  | '+' :: rest => parseUnsigned rest
  | cs => parseUnsigned cs

/-- `for line in data.decode().splitlines(): weight = float(line)` under
the surrounding `try/except: pass`: each parsed value overwrites the
weight; the first `ValueError` aborts the remaining lines, keeping the
last value assigned so far. -/
def foldLines (w : ℚ) : List String → ℚ
  | [] => w
  | l :: ls =>
      match parseFloat l with
      | some v => foldLines v ls
      | none => w

/-- Outcome of the non-blocking `conn.recv(64)`: an exception
(`EAGAIN`/transport error, swallowed by `except: pass`) or a payload,
where an empty payload is the peer's orderly close. -/
inductive RecvResult where
  | err
  | ok (payload : String)
  deriving DecidableEq, Repr

/-- The sensor-read step (lines 257-264).  Note: no branch clears the
connection. -/
def sensor_read (conn : Bool) (w : ℚ) (r : RecvResult) : Bool × ℚ :=
  if conn then
    match r with
    | RecvResult.err => (conn, w)
    | RecvResult.ok payload =>
        if payload = "" then (conn, w)
        else (conn, foldLines w (splitlines payload))
  else (conn, w)

/-! ### One tick of the event loop (lines 237-270) -/

/-- What the outside world delivers on one tick: whether
`load_srv.accept()` succeeds (only consulted when no connection is held),
the HTTP side (`none` = no pending client, `some none` = client whose
request could not be read/parsed, `some (some r)` = parsed request `r`),
the sensor `recv` outcome, and the current local day and `HH:MM` stamp. -/
structure TickInput where
  sensorAccept : Bool
  httpReq : Option (Option Request)
  recv : RecvResult
  day : Nat
  stamp : String

/-- Lines 238-252: accept a sensor connection if none is held; on accept
send a burst of five best-effort `TARE` commands. -/
def acceptPhase (s : ControllerState) (inp : TickInput) :
    ControllerState × List Actuation :=
  if s.conn = false ∧ inp.sensorAccept then
    ({ s with conn := true }, List.replicate 5 Actuation.tareSend)
  else (s, [])

/-- Lines 253-256: accept one HTTP client and dispatch `handle_http`. -/
def httpPhase (s : ControllerState) (inp : TickInput) :
    ControllerState × List Actuation :=
  match inp.httpReq with
  | some (some r) => handle_http r s
  | _ => (s, [])

/-- Lines 257-264: non-blocking sensor read updating `weight`. -/
def sensorPhase (s : ControllerState) (inp : TickInput) : ControllerState :=
  let cw := sensor_read s.conn s.weight inp.recv
  { s with conn := cw.1, weight := cw.2 }

/-- Lines 265-266: `if state['opened'] and weight >= WEIGHT_THRESHOLD:
close_gate(gate); state['opened'] = False; animate_ears_close(sr, sl)`. -/
def thresholdPhase (s : ControllerState) : ControllerState × List Actuation :=
  if s.opened = true ∧ WEIGHT_THRESHOLD ≤ s.weight then
    let oa := close_gate s.opened
    ({ s with opened := false }, oa.2 ++ [Actuation.earsClose])
  else (s, [])

/-- Lines 267-269: the schedule check; on trigger `open_gate`, set the
flag, record the ledger entry, animate ears. -/
def schedulePhase (s : ControllerState) (day : Nat) (stamp : String) :
    ControllerState × List Actuation :=
  if shouldTrigger stamp day s.feed_times s.ledger then
    let oa := open_gate s.opened
    ({ s with opened := true, ledger := ledgerSet s.ledger stamp day },
     oa.2 ++ [Actuation.earsOpen])
  else (s, [])

/-- The state as the autonomous checks see it: after the sensor-accept,
HTTP and sensor-read steps of the tick. -/
def midState (s : ControllerState) (inp : TickInput) : ControllerState :=
  sensorPhase (httpPhase (acceptPhase s inp).1 inp).1 inp

/-- One full iteration of the `while True` loop (lines 237-270), in the
source's order: sensor accept, HTTP, sensor read, threshold check,
schedule check.  Returns the final state and all actuations emitted. -/
def tick (s : ControllerState) (inp : TickInput) :
    ControllerState × List Actuation :=
  let a1 := (acceptPhase s inp).2
  let a2 := (httpPhase (acceptPhase s inp).1 inp).2
  let s3 := midState s inp
  let ta := thresholdPhase s3
  let sa := schedulePhase ta.1 inp.day inp.stamp
  (sa.1, a1 ++ a2 ++ ta.2 ++ sa.2)

/-- Canonical stamp in the sense of the spec's data model: some
`HH:MM` with hour 0-23 and minute 0-59, zero-padded.  Stated from the
spec's words, to compare against what the code actually stores. -/
def specCanonicalStamp (t : String) : Bool :=
  (List.range 24).any fun h => (List.range 60).any fun m => t == fmtStamp h m

/-! ### Concrete states and tick inputs used in witnesses -/

/-- A controller state with an open gate and a `12.50`-gram reading, as
in the spec's end-to-end threshold example. -/
def heavyState : ControllerState :=
  { feed_times := ["07:00"], ledger := [], opened := true,
    weight := 25/2, conn := true, file := File.withTimes ["07:00"],
    wifi_error := false }

/-- A state whose feed-time list already holds `09:05`, with a stale
ledger entry for it. -/
def staleState : ControllerState :=
  { feed_times := ["09:05"], ledger := [("09:05", 3)], opened := false,
    weight := 0, conn := false, file := File.withTimes ["09:05"],
    wifi_error := false }

/-- A state with three feed times, for index-addressed deletion. -/
def threeState : ControllerState :=
  { feed_times := ["07:00", "09:05", "12:00"], ledger := [("09:05", 3)],
    opened := false, weight := 0, conn := false,
    file := File.withTimes ["07:00", "09:05", "12:00"],
    wifi_error := false }

/-- An empty, freshly-initialized controller state. -/
def emptyState : ControllerState :=
  { feed_times := [], ledger := [], opened := false, weight := 0,
    conn := false, file := File.withTimes [], wifi_error := false }

/-- A state holding a live sensor connection. -/
def connState : ControllerState :=
  { feed_times := [], ledger := [], opened := false, weight := 0,
    conn := true, file := File.withTimes [], wifi_error := false }

/-- Tick input delivering a failed sensor read and nothing else. -/
def errInput : TickInput :=
  { sensorAccept := false, httpReq := none, recv := RecvResult.err,
    day := 1, stamp := "00:00" }

/-- Tick input delivering an orderly close (empty `recv` payload). -/
def closeInput : TickInput :=
  { sensorAccept := false, httpReq := none,
    recv := RecvResult.ok "", day := 1, stamp := "00:00" }

/-- Tick input carrying a `/openNow` request, with no sensor data and a
clock stamp not on the schedule. -/
def openNowInput : TickInput :=
  { sensorAccept := false, httpReq := some (some Request.openNow),
    recv := RecvResult.err, day := 5, stamp := "23:45" }

/-- Tick input carrying `/addFeed?hour=7&minute=0` at the very stamp
being added. -/
def addFeedInput : TickInput :=
  { sensorAccept := false,
    httpReq := some (some (Request.addFeed 7 0)),
    recv := RecvResult.err, day := 5, stamp := "07:00" }

end Snackzilla

/-! ### Helper lemmas -/

namespace Snackzilla

lemma ledgerGet_pop_self (l : Ledger) (k : String) :
    ledgerGet (ledgerPop l k) k = none := by
  have h : List.find? (fun p => p.fst == k)
      (List.filter (fun p => p.fst != k) l) = none := by
    rw [List.find?_eq_none]
    intro p hp
    have hk := (List.mem_filter.mp hp).2
    simp only [bne_iff_ne, ne_eq] at hk
    simpa using hk
  simp [ledgerGet, ledgerPop, h]

lemma ledgerGet_set_self (l : Ledger) (k : String) (d : Nat) :
    ledgerGet (ledgerSet l k d) k = some d := by
  simp [ledgerGet, ledgerSet, List.find?_cons]

lemma acceptPhase_fst (s : ControllerState) (inp : TickInput) :
    (acceptPhase s inp).1 =
      if s.conn = false ∧ inp.sensorAccept then { s with conn := true }
      else s := by
  unfold acceptPhase; split <;> rfl

lemma acceptPhase_fields (s : ControllerState) (inp : TickInput) :
    (acceptPhase s inp).1.opened = s.opened
    ∧ (acceptPhase s inp).1.weight = s.weight
    ∧ (acceptPhase s inp).1.feed_times = s.feed_times
    ∧ (acceptPhase s inp).1.ledger = s.ledger
    ∧ (acceptPhase s inp).1.wifi_error = s.wifi_error := by
  unfold acceptPhase; split <;> simp

lemma sensorPhase_err (s : ControllerState) (inp : TickInput)
    (h : inp.recv = RecvResult.err) : sensorPhase s inp = s := by
  unfold sensorPhase sensor_read
  rw [h]
  split <;> rfl

lemma thresholdPhase_fires (s : ControllerState) (h : s.opened = true)
    (hw : WEIGHT_THRESHOLD ≤ s.weight) :
    thresholdPhase s =
      ({ s with opened := false },
       [Actuation.dutyClose, Actuation.earsClose]) := by
  unfold thresholdPhase
  rw [if_pos ⟨h, hw⟩]
  simp [close_gate, h]

lemma thresholdPhase_fields (s : ControllerState) :
    (thresholdPhase s).1.feed_times = s.feed_times
    ∧ (thresholdPhase s).1.ledger = s.ledger
    ∧ (thresholdPhase s).1.weight = s.weight := by
  unfold thresholdPhase; split <;> simp

lemma schedulePhase_fires (s : ControllerState) (day : Nat) (stamp : String)
    (hmem : stamp ∈ s.feed_times)
    (hled : ledgerGet s.ledger stamp ≠ some day) :
    schedulePhase s day stamp =
      ({ s with opened := true, ledger := ledgerSet s.ledger stamp day },
       (open_gate s.opened).2 ++ [Actuation.earsOpen]) := by
  unfold schedulePhase
  rw [if_pos]
  simp [shouldTrigger, hmem, hled]

lemma schedulePhase_skip_notMem (s : ControllerState) (day : Nat)
    (stamp : String) (hmem : stamp ∉ s.feed_times) :
    schedulePhase s day stamp = (s, []) := by
  unfold schedulePhase
  rw [if_neg]
  simp [shouldTrigger, hmem]

lemma tick_eq (s : ControllerState) (inp : TickInput) :
    tick s inp =
      ((schedulePhase (thresholdPhase (midState s inp)).1 inp.day inp.stamp).1,
       (acceptPhase s inp).2
         ++ (httpPhase (acceptPhase s inp).1 inp).2
         ++ (thresholdPhase (midState s inp)).2
         ++ (schedulePhase (thresholdPhase (midState s inp)).1
               inp.day inp.stamp).2) := rfl

lemma parseFloat_15 : parseFloat "1.5" = some (3/2 : ℚ) := by
  show parseUnsigned ['1', '.', '5'] = some (3/2 : ℚ)
  simp [parseUnsigned, digitsVal]
  norm_num

lemma parseFloat_25 : parseFloat "2.5" = some (5/2 : ℚ) := by
  show parseUnsigned ['2', '.', '5'] = some (5/2 : ℚ)
  simp [parseUnsigned, digitsVal]
  norm_num

lemma parseFloat_bad : parseFloat "bad" = none := rfl

lemma threshold_le_25_half : WEIGHT_THRESHOLD ≤ (25/2 : ℚ) := by
  norm_num [WEIGHT_THRESHOLD]

end Snackzilla

/-! ### Claim theorems -/

namespace Snackzilla

/-- C9: saving a feed-time sequence to the durable config file and then
loading returns an equal sequence (order preserved); loading when the
file is absent or malformed returns the empty sequence and rewrites the
file with that empty sequence. -/
theorem C9_config_roundtrip :
    (∀ ts : List String, load_config (save_config ts) = (ts, save_config ts))
    ∧ load_config File.absent = ([], File.withTimes [])
    ∧ load_config File.malformed = ([], File.withTimes []) :=
  ⟨fun _ => rfl, rfl, rfl⟩

/-- C4: the schedule check fires iff the stamp is in the feed-time list
and the ledger entry for it differs from the current day; immediately
after recording a trigger it is false for the same stamp/day, and for a
stamp in the list it becomes eligible again exactly when the day
changes. -/
theorem C4_shouldTrigger_spec :
    ∀ (stamp : String) (day : Nat) (ft : List String) (l : Ledger),
      (shouldTrigger stamp day ft l = true
        ↔ stamp ∈ ft ∧ ledgerGet l stamp ≠ some day)
      ∧ shouldTrigger stamp day ft (ledgerSet l stamp day) = false
      ∧ (∀ d' : Nat, stamp ∈ ft →
          (shouldTrigger stamp d' ft (ledgerSet l stamp day) = true
            ↔ d' ≠ day)) := by
  intro stamp day ft l
  refine ⟨by simp [shouldTrigger], ?_, ?_⟩
  · simp [shouldTrigger, ledgerGet_set_self]
  · intro d' hmem
    simp only [shouldTrigger, ledgerGet_set_self, decide_eq_true_eq]
    constructor
    · rintro ⟨-, h⟩ rfl
      exact h rfl
    · intro h
      exact ⟨hmem, fun hc => h (by injection hc with h'; exact h'.symm)⟩

/-- Witness for C4 at the spec's own example: stamp `07:00`, day 5. -/
theorem C4_shouldTrigger_spec_witness :
    shouldTrigger "07:00" 5 ["07:00"] (ledgerSet [] "07:00" 5) = false
    ∧ ("07:00" ∈ ["07:00"]
        ∧ (shouldTrigger "07:00" 6 ["07:00"] (ledgerSet [] "07:00" 5) = true
            ↔ (6 : Nat) ≠ 5)) :=
  ⟨(C4_shouldTrigger_spec "07:00" 5 ["07:00"] []).2.1,
   by decide,
   (C4_shouldTrigger_spec "07:00" 5 ["07:00"] []).2.2 6 (by decide)⟩

/-- C7 counterexample: starting from an already-open gate, `open_gate`
twice performs zero actuations, not the one the claim asserts for every
starting state. -/
theorem C7_open_twice_cex :
    ¬ (((open_gate true).2 ++ (open_gate (open_gate true).1).2).count
        Actuation.dutyOpen = 1) := by decide

/-- C7 amended: `open_gate` twice from a closed gate performs exactly one
physical actuation and one state transition; from an open gate it
performs none; the second call is always a no-op; the `/openNow` body
(`forceOpen`) twice always performs two physical actuations. -/
theorem C7_open_idempotent_amended :
    (((open_gate false).2 ++ (open_gate (open_gate false).1).2).count
        Actuation.dutyOpen = 1
      ∧ (open_gate false).1 = true
      ∧ open_gate (open_gate false).1 = ((open_gate false).1, []))
    ∧ ((open_gate true).2 ++ (open_gate (open_gate true).1).2).count
        Actuation.dutyOpen = 0
    ∧ (∀ b : Bool, open_gate (open_gate b).1 = ((open_gate b).1, []))
    ∧ (∀ b : Bool,
        ((forceOpen b).2 ++ (forceOpen (forceOpen b).1).2).count
          Actuation.dutyOpen = 2) := by decide

end Snackzilla

namespace Snackzilla

/-- C5: whenever the gate is open and the weight reading is at least the
10-gram threshold, the threshold step (lines 265-266) closes the gate and
plays the closing animation; consequently a tick whose state after the
HTTP and sensor steps is open with weight at threshold emits the close
actuation and animation. -/
theorem C5_threshold_close :
    (∀ s : ControllerState, s.opened = true →
      WEIGHT_THRESHOLD ≤ s.weight →
      thresholdPhase s =
        ({ s with opened := false },
         [Actuation.dutyClose, Actuation.earsClose]))
    ∧ (∀ (s : ControllerState) (inp : TickInput),
        (midState s inp).opened = true →
        WEIGHT_THRESHOLD ≤ (midState s inp).weight →
        Actuation.dutyClose ∈ (tick s inp).2
          ∧ Actuation.earsClose ∈ (tick s inp).2) := by
  constructor
  · exact thresholdPhase_fires
  · intro s inp h hw
    rw [tick_eq, thresholdPhase_fires (midState s inp) h hw]
    simp

/-- Witness for C5 at `heavyState` (weight `12.50`, gate open). -/
theorem C5_threshold_close_witness :
    heavyState.opened = true
    ∧ WEIGHT_THRESHOLD ≤ heavyState.weight
    ∧ thresholdPhase heavyState =
        ({ heavyState with opened := false },
         [Actuation.dutyClose, Actuation.earsClose]) :=
  ⟨rfl, threshold_le_25_half,
   C5_threshold_close.1 heavyState rfl threshold_le_25_half⟩

/-- C3 counterexample: re-adding the already-present stamp `09:05` is a
complete no-op — in particular the stale ledger entry for `09:05`
survives, contradicting the claim that it is still cleared. -/
theorem C3_addFeed_existing_cex :
    handle_http (Request.addFeed 9 5) staleState = (staleState, [])
    ∧ ledgerGet (handle_http (Request.addFeed 9 5) staleState).1.ledger
        "09:05" = some 3 := by decide

/-- C3 amended: when the formatted stamp is already present in the
feed-time list, `/addFeed` leaves the whole state unchanged — the list
is unchanged, but the ledger entry is NOT cleared and the configuration
is NOT re-persisted (append, save and ledger-clear all sit inside the
`if t not in feed_times` branch). -/
theorem C3_addFeed_existing_amended :
    ∀ (s : ControllerState) (h m : Nat), s.wifi_error = false →
      fmtStamp h m ∈ s.feed_times →
      handle_http (Request.addFeed h m) s = (s, []) := by
  intro s h m hw hmem
  simp [handle_http, hw, hmem]

/-- Witness for the amended C3 at `staleState` and stamp `09:05`. -/
theorem C3_addFeed_existing_amended_witness :
    staleState.wifi_error = false
    ∧ fmtStamp 9 5 ∈ staleState.feed_times
    ∧ handle_http (Request.addFeed 9 5) staleState = (staleState, []) :=
  ⟨rfl, by decide,
   C3_addFeed_existing_amended staleState 9 5 rfl (by decide)⟩

/-- C6: `/deleteFeed` with parsed index `i` is a no-op when `i < 0` or
`i ≥ n`; for a valid index it removes exactly that entry (the list
becomes `take i ++ drop (i+1)`, one shorter), clears the ledger entry of
the removed stamp, and persists the new list; the route dispatch reduces
to this operation. -/
theorem C6_deleteFeed_spec :
    ∀ (i : Int) (s : ControllerState),
      ((i < 0 ∨ (s.feed_times.length : Int) ≤ i) → deleteFeedOp i s = s)
      ∧ (0 ≤ i → i < (s.feed_times.length : Int) →
          (deleteFeedOp i s).feed_times
              = s.feed_times.take i.toNat ++ s.feed_times.drop (i.toNat + 1)
          ∧ (deleteFeedOp i s).feed_times.length + 1 = s.feed_times.length
          ∧ ledgerGet (deleteFeedOp i s).ledger
              (s.feed_times.getD i.toNat "") = none
          ∧ (deleteFeedOp i s).file
              = save_config (deleteFeedOp i s).feed_times)
      ∧ (∀ j : Nat, s.wifi_error = false →
          handle_http (Request.deleteFeed j) s = (deleteFeedOp (j : Int) s, [])) := by
  intro i s
  refine ⟨?_, ?_, ?_⟩
  · intro h
    unfold deleteFeedOp
    rw [if_neg]
    rintro ⟨h0, hlt⟩
    rcases h with h | h <;> omega
  · intro h0 hlt
    have hn : i.toNat < s.feed_times.length := by omega
    unfold deleteFeedOp
    rw [if_pos ⟨h0, hlt⟩]
    refine ⟨?_, ?_, ?_, rfl⟩
    · simpa using List.eraseIdx_eq_take_drop_succ s.feed_times i.toNat
    · simpa using List.length_eraseIdx_add_one hn
    · simpa using ledgerGet_pop_self s.ledger (s.feed_times.getD i.toNat "")
  · intro j hw
    simp [handle_http, hw]

/-- Witness for C6 at `threeState`, deleting index 1 (`09:05`). -/
theorem C6_deleteFeed_spec_witness :
    (0 : Int) ≤ 1
    ∧ (1 : Int) < (threeState.feed_times.length : Int)
    ∧ ((deleteFeedOp 1 threeState).feed_times
          = threeState.feed_times.take (Int.toNat 1)
              ++ threeState.feed_times.drop (Int.toNat 1 + 1)
        ∧ (deleteFeedOp 1 threeState).feed_times.length + 1
            = threeState.feed_times.length
        ∧ ledgerGet (deleteFeedOp 1 threeState).ledger
            (threeState.feed_times.getD (Int.toNat 1) "") = none
        ∧ (deleteFeedOp 1 threeState).file
            = save_config (deleteFeedOp 1 threeState).feed_times) :=
  ⟨by decide, by decide,
   (C6_deleteFeed_spec 1 threeState).2.1 (by decide) (by decide)⟩

end Snackzilla

namespace Snackzilla

/-- C8 counterexample: `ADD_FEED_RE` only requires digits, so
`/addFeed?hour=99&minute=99` stores the stamp `99:99`, which is not a
canonical `HH:MM` time (hour 99 > 23, minute 99 > 59). -/
theorem C8_canonical_stamp_cex :
    (handle_http (Request.addFeed 99 99) emptyState).1.feed_times
        = ["99:99"]
    ∧ specCanonicalStamp "99:99" = false := by decide

/-- C8 amended: `/addFeed` either leaves the list unchanged or appends
exactly `fmtStamp h m`, the zero-padded rendering of the parsed
integers (two digits per field whenever the value is below 100); the
result is a canonical stamp whenever `h ≤ 23` and `m ≤ 59`, but the code
performs no range validation, so out-of-range parameters store
non-canonical stamps. -/
theorem C8_stamp_format_amended :
    ∀ (s : ControllerState) (h m : Nat), s.wifi_error = false →
      ((handle_http (Request.addFeed h m) s).1.feed_times = s.feed_times
        ∨ (handle_http (Request.addFeed h m) s).1.feed_times
            = s.feed_times ++ [fmtStamp h m])
      ∧ (h ≤ 23 → m ≤ 59 → specCanonicalStamp (fmtStamp h m) = true)
      ∧ (∀ n : Nat, n < 100 → (pad2 n).length = 2) := by
  intro s h m hw
  refine ⟨?_, ?_, by decide⟩
  · by_cases hmem : fmtStamp h m ∈ s.feed_times
    · left; simp [handle_http, hw, hmem]
    · right; simp [handle_http, hw, hmem]
  · intro hh hm
    simp only [specCanonicalStamp, List.any_eq_true, List.mem_range]
    exact ⟨h, by omega, m, by omega, by simp⟩

/-- Witness for the amended C8 at `emptyState` with `hour=9&minute=5`. -/
theorem C8_stamp_format_amended_witness :
    emptyState.wifi_error = false
    ∧ ((handle_http (Request.addFeed 9 5) emptyState).1.feed_times
          = emptyState.feed_times
        ∨ (handle_http (Request.addFeed 9 5) emptyState).1.feed_times
            = emptyState.feed_times ++ [fmtStamp 9 5])
    ∧ ((9 : Nat) ≤ 23 ∧ (5 : Nat) ≤ 59
        ∧ specCanonicalStamp (fmtStamp 9 5) = true)
    ∧ (7 : Nat) < 100 ∧ (pad2 7).length = 2 :=
  ⟨rfl, (C8_stamp_format_amended emptyState 9 5 rfl).1,
   ⟨by decide, by decide,
    (C8_stamp_format_amended emptyState 9 5 rfl).2.1 (by decide) (by decide)⟩,
   by decide,
   (C8_stamp_format_amended emptyState 9 5 rfl).2.2 7 (by decide)⟩

/-- C1 counterexample: with a live connection, a tick whose sensor read
fails — and likewise one whose peer performs an orderly close (empty
payload) — leaves the connection present; it does not revert to the
no-connection state the claim requires. -/
theorem C1_connection_drop_cex :
    (tick connState errInput).1.conn = true
    ∧ (tick connState closeInput).1.conn = true := by decide

/-- C1 amended: a failed read and an orderly close are both swallowed
(`except: pass`, and the `if data:` guard): the sensor-read step never
changes the connection, and a connection present at the start of a tick
is still present at its end — it never reverts to the no-connection
state, so no new accept is ever attempted while a connection exists. -/
theorem C1_connection_kept_amended :
    (∀ (c : Bool) (w : ℚ) (r : RecvResult), (sensor_read c w r).1 = c)
    ∧ (∀ (s : ControllerState) (inp : TickInput),
        s.conn = true → (tick s inp).1.conn = true) := by
  have hread : ∀ (c : Bool) (w : ℚ) (r : RecvResult),
      (sensor_read c w r).1 = c := by
    intro c w r
    cases c with
    | false => rfl
    | true =>
        cases r with
        | err => rfl
        | ok p =>
            show (if p = "" then ((true : Bool), w)
                  else (true, foldLines w (splitlines p))).1 = true
            split <;> rfl
  refine ⟨hread, ?_⟩
  intro s inp hc
  have h1 : (acceptPhase s inp).1.conn = true := by
    rw [acceptPhase_fst]
    split <;> simp [hc]
  have h2 : (httpPhase (acceptPhase s inp).1 inp).1.conn = true := by
    unfold httpPhase
    rcases inp.httpReq with _ | (_ | r)
    · exact h1
    · exact h1
    · show (handle_http r (acceptPhase s inp).1).1.conn = true
      unfold handle_http deleteFeedOp
      split
      · exact h1
      · cases r <;> simp_all <;> split <;> simp_all
  have h3 : (midState s inp).conn = true := by
    unfold midState sensorPhase
    simp only
    rw [hread]
    exact h2
  have h4 : (thresholdPhase (midState s inp)).1.conn = true := by
    unfold thresholdPhase
    split <;> simp [h3]
  rw [tick_eq]
  unfold schedulePhase
  split <;> simp [h4]

/-- Witness for the amended C1: the connection of `connState` survives a
tick with a failed read. -/
theorem C1_connection_kept_amended_witness :
    connState.conn = true ∧ (tick connState errInput).1.conn = true :=
  ⟨rfl, C1_connection_kept_amended.2 connState errInput rfl⟩

end Snackzilla

namespace Snackzilla

/-- C2 counterexample: on the payload `"1.5\nbad\n2.5\n"` the loop stops
at the malformed middle line, so the weight ends as `1.5`, not as the
last successfully-parseable value `2.5` — the malformed line does not
affect only itself. -/
theorem C2_malformed_line_cex :
    sensor_read true 0 (RecvResult.ok "1.5\nbad\n2.5\n") = (true, 3/2)
    ∧ parseFloat "2.5" = some (5/2)
    ∧ ((3/2 : ℚ) ≠ 5/2) := by
  refine ⟨?_, parseFloat_25, by norm_num⟩
  show (true, foldLines 0 (splitlines "1.5\nbad\n2.5\n"))
      = ((true : Bool), (3/2 : ℚ))
  have h1 : splitlines "1.5\nbad\n2.5\n" = ["1.5", "bad", "2.5"] := rfl
  rw [h1]
  have h2 : foldLines 0 ["1.5", "bad", "2.5"] = (3/2 : ℚ) := by
    simp [foldLines, parseFloat_15, parseFloat_bad]
  rw [h2]

/-- C2 amended: the payload is split into newline-delimited lines parsed
in order, each successful parse overwriting the weight; but a line that
fails to parse raises out of the `for` loop (caught by the surrounding
`except: pass`), aborting the remaining lines of that payload: the
weight ends as the last value parsed before the failure, and equals the
last line's value only when every line parses.  The loop itself does not
crash. -/
theorem C2_malformed_line_amended :
    (∀ (w : ℚ) (pre post : List String) (bad : String),
        parseFloat bad = none →
        foldLines w (pre ++ bad :: post) = foldLines w pre)
    ∧ (∀ (w : ℚ) (ls : List String) (l : String) (v : ℚ),
        parseFloat l = some v →
        (∀ x ∈ ls, (parseFloat x).isSome = true) →
        foldLines w (ls ++ [l]) = v) := by
  constructor
  · intro w pre post bad hbad
    induction pre generalizing w with
    | nil => simp [foldLines, hbad]
    | cons x xs ih =>
        cases hx : parseFloat x with
        | some v =>
            simp only [List.cons_append, foldLines, hx]
            exact ih v
        | none => simp only [List.cons_append, foldLines, hx]
  · intro w ls l v hv hall
    induction ls generalizing w with
    | nil => simp [foldLines, hv]
    | cons x xs ih =>
        obtain ⟨u, hu⟩ := Option.isSome_iff_exists.mp (hall x (by simp))
        simp only [List.cons_append, foldLines, hu]
        exact ih u (fun y hy => hall y (by simp [hy]))

/-- Witness for the amended C2 on the lines of the counterexample
payload. -/
theorem C2_malformed_line_amended_witness :
    parseFloat "bad" = none
    ∧ foldLines 0 (["1.5"] ++ "bad" :: ["2.5"]) = foldLines 0 ["1.5"]
    ∧ parseFloat "2.5" = some (5/2)
    ∧ (∀ x ∈ ["1.5"], (parseFloat x).isSome = true)
    ∧ foldLines 0 (["1.5"] ++ ["2.5"]) = 5/2 :=
  ⟨parseFloat_bad,
   C2_malformed_line_amended.1 0 ["1.5"] ["2.5"] "bad" parseFloat_bad,
   parseFloat_25,
   fun x hx => by
     simp only [List.mem_singleton] at hx
     subst hx
     simp [parseFloat_15],
   C2_malformed_line_amended.2 0 ["1.5"] "2.5" (5/2) parseFloat_25
     (fun x hx => by
       simp only [List.mem_singleton] at hx
       subst hx
       simp [parseFloat_15])⟩

end Snackzilla

namespace Snackzilla

lemma addFeed_establishes (s : ControllerState) (h m day : Nat)
    (hw : s.wifi_error = false)
    (hled : ledgerGet s.ledger (fmtStamp h m) ≠ some day) :
    fmtStamp h m ∈ (handle_http (Request.addFeed h m) s).1.feed_times
    ∧ ledgerGet (handle_http (Request.addFeed h m) s).1.ledger (fmtStamp h m)
        ≠ some day := by
  by_cases hmem : fmtStamp h m ∈ s.feed_times
  · simpa [handle_http, hw, hmem] using hled
  · have hp : ledgerGet (ledgerPop s.ledger (fmtStamp h m)) (fmtStamp h m)
        = none := ledgerGet_pop_self _ _
    simp [handle_http, hw, hmem, hp]

/-- C10: within one tick the HTTP step runs before the autonomous checks,
so its mutations are visible to them in the same tick.  Two observable
consequences are proved: (i) a `/openNow` arriving while the weight
reading is at threshold leads the threshold check of the same tick to
close the gate again; (ii) an `/addFeed` for the current clock stamp
makes the schedule check of the same tick fire — the gate is open and
the trigger recorded at the end of that very tick. -/
theorem C10_http_before_autochecks :
    ∀ (s : ControllerState) (inp : TickInput), s.wifi_error = false →
      ((inp.httpReq = some (some Request.openNow) →
        inp.recv = RecvResult.err →
        WEIGHT_THRESHOLD ≤ s.weight →
        inp.stamp ∉ s.feed_times →
        (tick s inp).1.opened = false
          ∧ Actuation.dutyClose ∈ (tick s inp).2)
      ∧ (∀ h m : Nat,
          inp.httpReq = some (some (Request.addFeed h m)) →
          inp.stamp = fmtStamp h m →
          ledgerGet s.ledger (fmtStamp h m) ≠ some inp.day →
          (tick s inp).1.opened = true
            ∧ ledgerGet (tick s inp).1.ledger inp.stamp = some inp.day)) := by
  intro s inp hwifi
  obtain ⟨ho, hwt, hft, hld, hwe⟩ := acceptPhase_fields s inp
  constructor
  · intro hreq hrecv hw hstamp
    have hhttp : httpPhase (acceptPhase s inp).1 inp =
        ({ (acceptPhase s inp).1 with opened := true },
         [Actuation.dutyOpen, Actuation.earsOpen]) := by
      unfold httpPhase
      rw [hreq]
      show handle_http Request.openNow (acceptPhase s inp).1 = _
      unfold handle_http
      rw [if_neg (by simp [hwe, hwifi])]
    have hs3 : midState s inp =
        { (acceptPhase s inp).1 with opened := true } := by
      unfold midState
      rw [hhttp]
      exact sensorPhase_err _ inp hrecv
    have hthr : thresholdPhase (midState s inp) =
        ({ (acceptPhase s inp).1 with opened := false },
         [Actuation.dutyClose, Actuation.earsClose]) := by
      rw [hs3]
      exact thresholdPhase_fires _ rfl (by simpa [hwt] using hw)
    have hsch : schedulePhase (thresholdPhase (midState s inp)).1
        inp.day inp.stamp = ((thresholdPhase (midState s inp)).1, []) := by
      apply schedulePhase_skip_notMem
      rw [hthr]
      simpa [hft] using hstamp
    constructor
    · rw [tick_eq]
      simp only
      rw [hsch, hthr]
    · rw [tick_eq]
      simp only
      rw [hsch, hthr, hhttp]
      simp
  · intro h m hreq hstamp hled
    have hkey := addFeed_establishes (acceptPhase s inp).1 h m inp.day
      (by rw [hwe]; exact hwifi) (by rw [hld]; exact hled)
    have hkey2 : inp.stamp ∈ ((httpPhase (acceptPhase s inp).1 inp).1).feed_times
        ∧ ledgerGet ((httpPhase (acceptPhase s inp).1 inp).1).ledger
            inp.stamp ≠ some inp.day := by
      unfold httpPhase
      rw [hreq, hstamp]
      exact hkey
    have hft3 : inp.stamp ∈ (midState s inp).feed_times := hkey2.1
    have hld3 : ledgerGet (midState s inp).ledger inp.stamp
        ≠ some inp.day := hkey2.2
    have hthf := thresholdPhase_fields (midState s inp)
    have hmem4 : inp.stamp ∈ (thresholdPhase (midState s inp)).1.feed_times := by
      rw [hthf.1]; exact hft3
    have hled4 : ledgerGet (thresholdPhase (midState s inp)).1.ledger
        inp.stamp ≠ some inp.day := by
      rw [hthf.2.1]; exact hld3
    have hfire := schedulePhase_fires _ inp.day inp.stamp hmem4 hled4
    constructor
    · rw [tick_eq]
      simp only
      rw [hfire]
    · rw [tick_eq]
      simp only
      rw [hfire]
      exact ledgerGet_set_self _ _ _

/-- Witness for C10: `heavyState` with a `/openNow` tick closes the gate
that same tick; with an `/addFeed?hour=7&minute=0` tick at stamp
`07:00`, the gate is open and the trigger recorded that same tick. -/
theorem C10_http_before_autochecks_witness :
    heavyState.wifi_error = false
    ∧ ((tick heavyState openNowInput).1.opened = false
        ∧ Actuation.dutyClose ∈ (tick heavyState openNowInput).2)
    ∧ ((tick heavyState addFeedInput).1.opened = true
        ∧ ledgerGet (tick heavyState addFeedInput).1.ledger
            addFeedInput.stamp = some addFeedInput.day) :=
  ⟨rfl,
   (C10_http_before_autochecks heavyState openNowInput rfl).1 rfl rfl
     threshold_le_25_half (by decide),
   (C10_http_before_autochecks heavyState addFeedInput rfl).2 7 0 rfl
     (by decide) (by decide)⟩

end Snackzilla
